import Mathlib

/-!
A shallow embedding of `src/mps_youtube/mpris.py` (the MPRIS2 bridge of
mps-youtube): the property table, the `setproperty` change-event handler,
the `_sendcommand` wire encoder for the two backend transports, the
player/properties D-Bus methods, and the transport-bind logic.

Modelling conventions:
* Python numbers (ints and floats coming from the player / JSON events)
  are modelled as exact rationals `ℚ`; `dbus.Int64` truncation toward
  zero is `Int.tdiv` on the numerator.
* Dynamic Python values carried by change events are the inductive
  `PyVal`; `dbus` wrapper coercions are modelled for the value shapes the
  player actually sends (strings, numbers, booleans, tuples, None); other
  coercions (e.g. `float` of a numeric string, `str()` of a non-string)
  are mapped to errors and are not relied on by any theorem.
* Raised Python exceptions are the `Except PyErr` error channel.
* Real-time sleeps are recorded as a trace of sleep durations (seconds).
-/

namespace mpris

/-- Interface-name constant from the source. -/
def ROOT_INTERFACE : String := "org.mpris.MediaPlayer2"

/-- Interface-name constant from the source. -/
def PLAYER_INTERFACE : String := "org.mpris.MediaPlayer2.Player"

/-- Instance identity: `'mps-youtube.instance' + str(os.getpid())`. -/
def IDENTITY (pid : ℕ) : String := "mps-youtube.instance" ++ toString pid

/-- Dynamic Python value as carried by inbound change events. -/
inductive PyVal where
  | none
  | bool (b : Bool)
  | num (q : ℚ)
  | str (s : String)
  | tup (xs : List PyVal)

/-- Test `val is None`. -/
def PyVal.isNone : PyVal → Bool
  | .none => true
  | _ => false

/-- Python truthiness (`if val:`). -/
def truthy : PyVal → Bool
  | .none => false
  | .bool b => b
  | .num q => q != 0
  | .str s => s != ""
  | .tup xs => !xs.isEmpty

/-- Python exception kinds raised by the modelled code. -/
inductive PyErr where
  | typeError
  | valueError
  | nameError (missing : String)
deriving DecidableEq

/-- Conversion `float(val)`: numbers and booleans convert, `None` and
tuples raise `TypeError`.  (Numeric strings, which Python would parse,
are not sent by the player and are modelled as errors.) -/
def pyFloat : PyVal → Except PyErr ℚ
  | .num q => .ok q
  | .bool b => .ok (if b then 1 else 0)
  | _ => .error .typeError

/-- Value of `dbus.Int64(q * 10**6)` for a number `q = num/den`: the
exact product `q·10⁶ = (num·10⁶)/den` truncated toward zero, computed
directly on the numerator (`Int.tdiv` truncates toward zero, as
Python `int()` does). -/
def int64MicrosOfRat (q : ℚ) : ℤ := (q.num * 1000000).tdiv (q.den : ℤ)

/-- Conversion `dbus.Int64(val * 10**6)`: a number is scaled and
truncated; a boolean is the int 0/1 scaled; a tuple raises `TypeError`
(in Python, Int64 of a repeated tuple).  (Strings, which Python would
repeat a million times before failing the int conversion, are modelled
directly as errors.) -/
def int64TimesMillion : PyVal → Except PyErr ℤ
  | .num q => .ok (int64MicrosOfRat q)
  | .bool b => .ok (if b then 1000000 else 0)
  | _ => .error .typeError

/-- Conversion requiring a Python `str` (argument of `re.sub`). -/
def asStr : PyVal → Except PyErr String
  | .str s => .ok s
  | _ => .error .typeError

/-- Sanitization `re.sub('[^a-zA-Z0-9]', '', trackid)`: keep only ASCII
letters and digits. -/
def sanitize (s : String) : String :=
  String.mk (s.toList.filter (fun c => c.isAlpha || c.isDigit))

/-- The stored `Metadata` dictionary: either the initial placeholder
(only an `mpris:trackid` key) or a full entry built by a metadata
event. -/
inductive Meta where
  | unknownTrack
  | full (trackid : String) (length : ℤ) (title : String)
deriving DecidableEq

/-- Object path stored under `mpris:trackid`. -/
def trackidPath : Meta → String
  | .unknownTrack => "/CurrentPlaylist/UnknownTrack"
  | .full t _ _ => "/CurrentPlaylist/ytid/" ++ t

/-- Property values appearing in the property table and in change
notifications. -/
inductive PropVal where
  | b (x : Bool)
  | s (x : String)
  | i64 (x : ℤ)
  | f (x : ℚ)
  | meta (m : Meta)
  | strList (xs : List String)
deriving DecidableEq

/-- Emitted D-Bus signals. -/
inductive Sig where
  | propertiesChanged (iface : String) (changed : List (String × PropVal))
      (invalidated : List String)
  | seeked (pos : ℤ)
deriving DecidableEq

/-- Keys of the changed-properties map of a signal (empty for `Seeked`). -/
def changedKeys : Sig → List String
  | .propertiesChanged _ ch _ => ch.map Prod.fst
  | .seeked _ => []

/-- Invalidated-properties list of a signal (empty for `Seeked`). -/
def invalidatedKeys : Sig → List String
  | .propertiesChanged _ _ inv => inv
  | .seeked _ => []

/-- Mutable state of `Mpris2MediaPlayer`: the mutable entries of the
property table plus the transport fields `socket`, `fifo`, `mpv`
(handles abstracted to presence booleans). -/
structure PState where
  identity : String
  playbackStatus : String
  metadata : Meta
  position : ℤ
  volume : ℚ
  rate : ℚ
  fullscreen : Bool
  socket : Bool
  fifo : Bool
  mpv : Bool
deriving DecidableEq

/-- State after `__init__`: no transport bound, `PlaybackStatus` is
`'Stopped'`, placeholder metadata, position 0, rate and volume 1.0. -/
def initState (pid : ℕ) : PState :=
  { identity := IDENTITY pid
    playbackStatus := "Stopped"
    metadata := .unknownTrack
    position := 0
    volume := 1
    rate := 1
    fullscreen := false
    socket := false
    fifo := false
    mpv := false }

/-- Command atom: one element of the list passed to `_sendcommand`. -/
inductive Atom where
  | str (s : String)
  | int (n : ℤ)
  | num (q : ℚ)
  | bool (b : Bool)
deriving DecidableEq

/-- JSON rendering of one atom, as `json.dumps` renders list elements.
(The repr of a float is not modelled; no modelled command carries a
float over the socket in any theorem below.) -/
def jsonAtom : Atom → String
  | .str s => "\"" ++ s ++ "\""
  | .int n => toString n
  | .num q => toString q
  | .bool b => if b then "true" else "false"

/-- Socket wire encoding: `json.dumps({"command": command}) + '\n'`,
with the default `", "` / `": "` separators of `json.dumps`. -/
def jsonDumps (cmd : List Atom) : String :=
  "\x7b\"command\": [" ++ String.intercalate ", " (cmd.map jsonAtom) ++ "]\x7d"

/-- The boolean-token substitution done before pipe encoding: `True`
becomes `'yes'`/`1` and `False` becomes `'no'`/`0` depending on the
`mpv` flag. -/
def pipeSubst (mpv : Bool) : Atom → Atom
  | .bool true => if mpv then .str "yes" else .int 1
  | .bool false => if mpv then .str "no" else .int 0
  | a => a

/-- Python `str()` applied to an atom when joining a pipe command. -/
def pyStrAtom : Atom → String
  | .str s => s
  | .int n => toString n
  | .num q => toString q
  | .bool b => if b then "True" else "False"

/-- Pipe wire encoding: atoms (after boolean substitution) joined by
single spaces, newline-terminated. -/
def pipeLine (mpv : Bool) (cmd : List Atom) : String :=
  String.intercalate " " ((cmd.map (pipeSubst mpv)).map pyStrAtom) ++ "\n"

/-- One write on a backend transport. -/
inductive Wire where
  | socketWrite (data : String)
  | fifoWrite (data : String)
deriving DecidableEq

/-- The `_sendcommand` method: prefer the socket (JSON dialect), else
the fifo (plain-text dialect), else silently do nothing. -/
def sendcommand (st : PState) (cmd : List Atom) : List Wire :=
  if st.socket then [.socketWrite (jsonDumps cmd ++ "\n")]
  else if st.fifo then [.fifoWrite (pipeLine st.mpv cmd)]
  else []

/-- The `setproperty` change-event handler (lines 226-289 of the
source): dispatch on the event tag; compute the new value; when it
differs from the stored one, mutate and (except for `time-pos`) emit a
`PropertiesChanged` signal; `time-pos` emits a `Seeked` signal on a
jump of at least 4,000,000 microseconds. -/
def setproperty (st : PState) (name : String) (val : PyVal) :
    Except PyErr (PState × List Sig) :=
  if name = "pause" then
    let oldval := st.playbackStatus
    let newval := if truthy val then "Paused" else "Playing"
    if newval ≠ oldval then
      .ok ({st with playbackStatus := newval},
        [.propertiesChanged PLAYER_INTERFACE [("PlaybackStatus", .s newval)] []])
    else .ok (st, [])
  else if name = "stop" then
    let oldval := st.playbackStatus
    let newval := if truthy val then "Stopped" else "Playing"
    if newval ≠ oldval then
      .ok ({st with playbackStatus := newval},
        [.propertiesChanged PLAYER_INTERFACE [("PlaybackStatus", .s newval)]
          ["Metadata", "Position"]])
    else .ok (st, [])
  else if name = "volume" ∧ val.isNone = false then
    match pyFloat val with
    | .error e => .error e
    | .ok q =>
      let newval := q / 100
      if newval ≠ st.volume then
        .ok ({st with volume := newval},
          [.propertiesChanged PLAYER_INTERFACE [("Volume", .f newval)] []])
      else .ok (st, [])
  else if name = "time-pos" ∧ truthy val = true then
    match int64TimesMillion val with
    | .error e => .error e
    | .ok newval =>
      let oldval := st.position
      let st1 := if newval ≠ oldval then {st with position := newval} else st
      if 4 * 1000000 ≤ |newval - oldval| then .ok (st1, [.seeked newval])
      else .ok (st1, [])
  else if name = "metadata" ∧ truthy val = true then
    match val with
    | .tup [a, b, c] =>
      (match asStr a with
       | .error e => .error e
       | .ok tid0 =>
         let tid := sanitize tid0
         match int64TimesMillion c with
         | .error e => .error e
         | .ok len =>
           match asStr b with
           | .error e => .error e
           | .ok ttl =>
             let newval := Meta.full tid len ttl
             if newval ≠ st.metadata then
               .ok ({st with metadata := newval},
                 [.propertiesChanged PLAYER_INTERFACE
                   [("Metadata", .meta newval)] []])
             else .ok (st, []))
    | .tup _ => .error .valueError
    | _ => .error .typeError
  else .ok (st, [])

/-- Sequential application of a list of change events; a raised
exception aborts the sequence with that error. -/
def applySeq (st : PState) : List (String × PyVal) → Except PyErr (PState × List Sig)
  | [] => .ok (st, [])
  | (n, v) :: rest =>
    match setproperty st n v with
    | .error e => .error e
    | .ok (st1, sigs) =>
      match applySeq st1 rest with
      | .error e => .error e
      | .ok (st2, sigs2) => .ok (st2, sigs ++ sigs2)

/-- The relay loop of `Mpris2Controller.listenstatus` restricted to
property events: events are applied in order; the first raised
exception is swallowed by the bare `except` clause and ends the loop
quietly with the state reached so far. -/
def listenApply (st : PState) : List (String × PyVal) → PState × List Sig
  | [] => (st, [])
  | (n, v) :: rest =>
    match setproperty st n v with
    | .error _ => (st, [])
    | .ok (st1, sigs) =>
      let r := listenApply st1 rest
      (r.1, sigs ++ r.2)

/-- The `Next` method: sends `["quit"]`. -/
def Next (st : PState) : List Wire :=
  sendcommand st [.str "quit"]

/-- The `Previous` method: sends `["quit", 42]`. -/
def Previous (st : PState) : List Wire :=
  sendcommand st [.str "quit", .int 42]

/-- The `Stop` method: sends `["quit", 43]`. -/
def Stop (st : PState) : List Wire :=
  sendcommand st [.str "quit", .int 43]

/-- Commands issued by the `Pause` method: with the `mpv` flag set an
unconditional `["set_property","pause",True]`, otherwise `["pause"]`
only when the current status is not `'Paused'`. -/
def pauseCommands (st : PState) : List (List Atom) :=
  if st.mpv then [[.str "set_property", .str "pause", .bool true]]
  else if st.playbackStatus ≠ "Paused" then [[.str "pause"]]
  else []

/-- The `Pause` method: issues its commands through `_sendcommand`. -/
def Pause (st : PState) : List Wire :=
  (pauseCommands st).flatMap (sendcommand st)

/-- Commands issued by the `Play` method: with the `mpv` flag set an
unconditional `["set_property","pause",False]`, otherwise `["pause"]`
only when the current status is not `'Playing'`. -/
def playCommands (st : PState) : List (List Atom) :=
  if st.mpv then [[.str "set_property", .str "pause", .bool false]]
  else if st.playbackStatus ≠ "Playing" then [[.str "pause"]]
  else []

/-- The `Play` method: issues its commands through `_sendcommand`. -/
def Play (st : PState) : List Wire :=
  (playCommands st).flatMap (sendcommand st)

/-- The `SetPosition` method: when the requested track id differs from
the stored `mpris:trackid` the call is ignored; when it matches, line
407 evaluates the name `offset`, which is not defined in the method
(its parameter is `position`), so Python raises a `NameError` before
any command is sent.  On success the result is the list of commands
issued. -/
def SetPosition (st : PState) (track_id : String) (position : ℤ) :
    Except PyErr (List (List Atom)) :=
  if track_id = trackidPath st.metadata then
    .error (.nameError "offset")
  else
    .ok []

/-- Error raised to the D-Bus peer by the properties methods. -/
inductive DBusErr where
  | unknownInterface (iface : String)
  | keyError (prop : String)
deriving DecidableEq

/-- Keys of the read-write partition of an interface's table. -/
def readWriteKeys (iface : String) : List String :=
  if iface = ROOT_INTERFACE then ["Fullscreen"]
  else if iface = PLAYER_INTERFACE then ["Rate", "Volume"]
  else []

/-- The `GetAll` method: for a registered interface, the read-only
entries followed by the read-write entries (a copy of the read-only
dict updated with the read-write dict); an unregistered interface name
raises the `UnknownInterface` D-Bus exception. -/
def GetAll (st : PState) (iface : String) :
    Except DBusErr (List (String × PropVal)) :=
  if iface = ROOT_INTERFACE then
    .ok [("CanQuit", .b false), ("CanSetFullscreen", .b false),
         ("CanRaise", .b false), ("HasTrackList", .b false),
         ("Identity", .s st.identity), ("SupportedUriSchemes", .strList []),
         ("SupportedMimeTypes", .strList []),
         ("Fullscreen", .b st.fullscreen)]
  else if iface = PLAYER_INTERFACE then
    .ok [("PlaybackStatus", .s st.playbackStatus),
         ("Metadata", .meta st.metadata), ("Position", .i64 st.position),
         ("MinimumRate", .f 1), ("MaximumRate", .f 1),
         ("CanGoNext", .b true), ("CanGoPrevious", .b true),
         ("CanPlay", .b true), ("CanPause", .b true),
         ("CanSeek", .b true), ("CanControl", .b true),
         ("Rate", .f st.rate), ("Volume", .f st.volume)]
  else
    .error (.unknownInterface iface)

/-- The `Get` method: `GetAll(interface_name)[property_name]`; a
missing key raises `KeyError`. -/
def Get (st : PState) (iface prop : String) : Except DBusErr PropVal :=
  match GetAll st iface with
  | .error e => .error e
  | .ok table =>
    match table.lookup prop with
    | some v => .ok v
    | none => .error (.keyError prop)

/-- The `Set` method.  It never assigns to the property table, so the
result carries the unchanged state together with the commands issued:
for a registered interface, only a read-write `Volume` property leads
to a `["set_property","volume", value*100]` command, followed by a
`["get_property","volume"]` query when the fifo is bound; an
unregistered interface name raises `UnknownInterface`.  (The value is
modelled as the numeric variant, the only shape forwarded.) -/
def SetProperty (st : PState) (iface prop : String) (v : ℚ) :
    Except DBusErr (PState × List (List Atom)) :=
  if iface = ROOT_INTERFACE ∨ iface = PLAYER_INTERFACE then
    if prop ∈ readWriteKeys iface then
      if prop = "Volume" then
        .ok (st, [[.str "set_property", .str "volume", .num (v * 100)]] ++
          (if st.fifo then [[.str "get_property", .str "volume"]] else []))
      else .ok (st, [])
    else .ok (st, [])
  else .error (.unknownInterface iface)

/-- The `bindfifo` method: on a successful open the fifo handle is set,
a `['get_property','volume']` priming command is sent (before the `mpv`
dialect flag is assigned), then the flag is set; on failure the fifo
handle is cleared and the flag is left as it was. -/
def bindfifo (st : PState) (ok mpv : Bool) : PState × List Wire :=
  if ok then
    let st1 := {st with fifo := true}
    ({st1 with mpv := mpv}, sendcommand st1 [.str "get_property", .str "volume"])
  else ({st with fifo := false}, [])

/-- The connect-retry loop of `bindmpv` (`while tries < 10`), driven by
an oracle giving each attempt's outcome: each iteration sleeps 0.5
seconds and then attempts to connect, stopping at the first success.
The result is the trace of sleep durations (one per attempt, in
seconds) and whether a connection was established. -/
def connectLoopAux (connectOk : ℕ → Bool) : ℕ → ℕ → List ℚ × Bool
  | 0, _ => ([], false)
  | fuel + 1, tries =>
    if connectOk tries then ([1/2], true)
    else
      let r := connectLoopAux connectOk fuel (tries + 1)
      ((1/2) :: r.1, r.2)

/-- The full retry budget of `bindmpv`: 10 attempts starting at 0. -/
def connectLoop (connectOk : ℕ → Bool) : List ℚ × Bool :=
  connectLoopAux connectOk 10 0

/-- State after the bind phase of `bindmpv`: the `mpv` flag is set on
entry; the socket handle is present iff the retry loop connected, and
is cleared by the `else` clause of the loop otherwise.  (On the failure
path the subsequent `observe_property` send is a no-op and the read
loop raises `AttributeError` on the cleared handle, ending the bind
thread without further state change, so no retry ever happens.) -/
def bindmpv (st : PState) (connectOk : ℕ → Bool) : PState :=
  let st1 := {st with mpv := true}
  if (connectLoop connectOk).2 then {st1 with socket := true}
  else {st1 with socket := false}

/-- Final state of an event-handler result, with a default for the
error case. -/
def resState (r : Except PyErr (PState × List Sig)) (d : PState) : PState :=
  match r with
  | .ok (s, _) => s
  | .error _ => d

/-- Signals of an event-handler result (none on an error). -/
def resSigs (r : Except PyErr (PState × List Sig)) : List Sig :=
  match r with
  | .ok (_, sigs) => sigs
  | .error _ => []

/-- The playback statuses admitted by the MPRIS2 convention. -/
def okStatuses : List String := ["Playing", "Paused", "Stopped"]

/-- C3: `SetPosition` ignores a request whose track id differs from the
stored `mpris:trackid` (no command, no state change); but on a matching
track id the code evaluates the undefined name `offset` (line 407) and
raises `NameError` instead of computing the seek offset
`(position - current Position)/1e6` and issuing an absolute seek, as
the specification requires.  Evaluated here at the failing input
`track_id = "/CurrentPlaylist/UnknownTrack"`, `position = 5000000`. -/
theorem claim3_setposition_nameerror :
    SetPosition (initState 0) "/CurrentPlaylist/UnknownTrack" 5000000 =
      .error (.nameError "offset") ∧
    SetPosition (initState 0) "/SomeOtherTrack" 5000000 = .ok [] := by
  exact ⟨rfl, rfl⟩

/-- C10: `Next`, `Previous`, `Stop` produce the atom sequences
`["quit"]`, `["quit",42]`, `["quit",43]`; socket-bound they are encoded
as the newline-terminated JSON object `{"command": [...]}` and
pipe-bound as the space-joined atoms with a newline; pipe booleans
render as `yes`/`no` when the mpv flag is set and as `1`/`0`
otherwise. -/
theorem claim10_quit_wire_encoding :
    (∀ st : PState, st.socket = true →
      Next st = [.socketWrite "\x7b\"command\": [\"quit\"]\x7d\n"] ∧
      Previous st = [.socketWrite "\x7b\"command\": [\"quit\", 42]\x7d\n"] ∧
      Stop st = [.socketWrite "\x7b\"command\": [\"quit\", 43]\x7d\n"]) ∧
    (∀ st : PState, st.socket = false → st.fifo = true →
      Next st = [.fifoWrite "quit\n"] ∧
      Previous st = [.fifoWrite "quit 42\n"] ∧
      Stop st = [.fifoWrite "quit 43\n"]) ∧
    (∀ st : PState, st.socket = false → st.fifo = true → st.mpv = true →
      sendcommand st [.str "set_property", .str "pause", .bool true] =
        [.fifoWrite "set_property pause yes\n"] ∧
      sendcommand st [.str "set_property", .str "pause", .bool false] =
        [.fifoWrite "set_property pause no\n"]) ∧
    (∀ st : PState, st.socket = false → st.fifo = true → st.mpv = false →
      sendcommand st [.str "set_property", .str "pause", .bool true] =
        [.fifoWrite "set_property pause 1\n"] ∧
      sendcommand st [.str "set_property", .str "pause", .bool false] =
        [.fifoWrite "set_property pause 0\n"]) := by
  refine ⟨fun st h => ?_, fun st h1 h2 => ?_, fun st h1 h2 h3 => ?_,
    fun st h1 h2 h3 => ?_⟩
  · simp only [Next, Previous, Stop, sendcommand, h, if_true]
    decide
  · simp only [Next, Previous, Stop, sendcommand, h1, h2, Bool.false_eq_true,
      if_false, if_true, pipeLine, pipeSubst, pyStrAtom, List.map_cons,
      List.map_nil]
    decide
  · simp only [sendcommand, h1, h2, h3, Bool.false_eq_true, if_false, if_true,
      pipeLine, pipeSubst]
    decide
  · simp only [sendcommand, h1, h2, h3, Bool.false_eq_true, if_false, if_true,
      pipeLine, pipeSubst]
    decide

/-- Witness for C10 at concrete socket-bound and pipe-bound states. -/
theorem claim10_quit_wire_encoding_witness :
    Next {initState 0 with socket := true, mpv := true} =
      [.socketWrite "\x7b\"command\": [\"quit\"]\x7d\n"] ∧
    Previous {initState 0 with fifo := true} = [.fifoWrite "quit 42\n"] ∧
    sendcommand {initState 0 with fifo := true, mpv := true}
      [.str "set_property", .str "pause", .bool true] =
        [.fifoWrite "set_property pause yes\n"] ∧
    sendcommand {initState 0 with fifo := true}
      [.str "set_property", .str "pause", .bool true] =
        [.fifoWrite "set_property pause 1\n"] :=
  ⟨(claim10_quit_wire_encoding.1 _ rfl).1,
   (claim10_quit_wire_encoding.2.1 _ rfl rfl).2.1,
   (claim10_quit_wire_encoding.2.2.1 _ rfl rfl rfl).1,
   (claim10_quit_wire_encoding.2.2.2 _ rfl rfl rfl).1⟩

/-- C4 counterexample: after a pipe bind with the mpv dialect
(`bindfifo(path, mpv=True)`), the pipe is the bound transport and the
status is not `'Paused'`, yet `Pause` sends
`["set_property","pause",True]`, not `["pause"]` — the dispatch is on
the `mpv` flag, not on which transport is bound. -/
theorem claim4_counterexample :
    ((bindfifo (initState 0) true true).1.fifo = true) ∧
    ((bindfifo (initState 0) true true).1.socket = false) ∧
    ((bindfifo (initState 0) true true).1.playbackStatus ≠ "Paused") ∧
    pauseCommands ((bindfifo (initState 0) true true).1) =
      [[.str "set_property", .str "pause", .bool true]] ∧
    [[Atom.str "set_property", .str "pause", .bool true]] ≠
      [[Atom.str "pause"]] := by
  refine ⟨rfl, rfl, by decide, rfl, by decide⟩

/-- C4 (amended): the `Pause`/`Play` command choice is governed by the
`mpv` dialect flag, not by which transport is bound.  After a socket
bind, or a pipe bind with the mpv dialect, `Pause` unconditionally
sends `["set_property","pause",True]` and `Play` unconditionally sends
`["set_property","pause",False]`; after a pipe bind with the mplayer
dialect, `Pause` sends `["pause"]` iff the status is not `'Paused'` and
`Play` sends `["pause"]` iff the status is not `'Playing'`. -/
theorem claim4_pause_play_dialect :
    (∀ (st : PState) (co : ℕ → Bool),
      pauseCommands (bindmpv st co) =
        [[.str "set_property", .str "pause", .bool true]] ∧
      playCommands (bindmpv st co) =
        [[.str "set_property", .str "pause", .bool false]]) ∧
    (∀ st : PState,
      pauseCommands ((bindfifo st true true).1) =
        [[.str "set_property", .str "pause", .bool true]] ∧
      playCommands ((bindfifo st true true).1) =
        [[.str "set_property", .str "pause", .bool false]]) ∧
    (∀ st : PState,
      pauseCommands ((bindfifo st true false).1) =
        (if st.playbackStatus ≠ "Paused" then [[.str "pause"]] else []) ∧
      playCommands ((bindfifo st true false).1) =
        (if st.playbackStatus ≠ "Playing" then [[.str "pause"]] else [])) := by
  refine ⟨fun st co => ?_, fun st => ?_, fun st => ?_⟩
  · unfold bindmpv
    split <;> simp [pauseCommands, playCommands]
  · simp [bindfifo, pauseCommands, playCommands]
  · simp [bindfifo, pauseCommands, playCommands]

/-- Unfolding of `setproperty` for a `pause` event: no exception, and
the status/notification update of the first branch. -/
theorem setproperty_pause_eq (st : PState) (v : PyVal) :
    setproperty st "pause" v =
      (if (if truthy v then "Paused" else "Playing") = st.playbackStatus then
        .ok (st, [])
       else
        .ok ({st with playbackStatus := if truthy v then "Paused" else "Playing"},
          [.propertiesChanged PLAYER_INTERFACE
            [("PlaybackStatus", .s (if truthy v then "Paused" else "Playing"))]
            []])) := by
  unfold setproperty
  rw [if_pos rfl]
  by_cases h : (if truthy v then "Paused" else "Playing") = st.playbackStatus
  · simp [h]
  · simp [h]

/-- Unfolding of `setproperty` for a `stop` event: no exception, and
the status/notification update of the second branch, with invalidated
list `[Metadata, Position]`. -/
theorem setproperty_stop_eq (st : PState) (v : PyVal) :
    setproperty st "stop" v =
      (if (if truthy v then "Stopped" else "Playing") = st.playbackStatus then
        .ok (st, [])
       else
        .ok ({st with playbackStatus := if truthy v then "Stopped" else "Playing"},
          [.propertiesChanged PLAYER_INTERFACE
            [("PlaybackStatus", .s (if truthy v then "Stopped" else "Playing"))]
            ["Metadata", "Position"]])) := by
  unfold setproperty
  rw [if_neg (by decide), if_pos rfl]
  by_cases h : (if truthy v then "Stopped" else "Playing") = st.playbackStatus
  · simp [h]
  · simp [h]

/-- Unfolding of `setproperty` for an event with an unrecognized tag:
a silent no-op. -/
theorem setproperty_other_eq (st : PState) (n : String) (v : PyVal)
    (h1 : n ≠ "pause") (h2 : n ≠ "stop") (h3 : n ≠ "volume")
    (h4 : n ≠ "time-pos") (h5 : n ≠ "metadata") :
    setproperty st n v = .ok (st, []) := by
  unfold setproperty
  rw [if_neg h1, if_neg h2, if_neg (fun hc => h3 hc.1),
    if_neg (fun hc => h4 hc.1), if_neg (fun hc => h5 hc.1)]

/-- Unfolding of `setproperty` for a `volume` event: `None` is ignored;
otherwise the value is converted by `float`, divided by 100, and stored
with a notification when it differs. -/
theorem setproperty_volume_eq (st : PState) (v : PyVal) :
    setproperty st "volume" v =
      (if v.isNone then .ok (st, [])
       else
         match pyFloat v with
         | .error e => .error e
         | .ok q =>
           if q / 100 = st.volume then .ok (st, [])
           else .ok ({st with volume := q / 100},
             [.propertiesChanged PLAYER_INTERFACE [("Volume", .f (q / 100))] []])) := by
  unfold setproperty
  rw [if_neg (by decide), if_neg (by decide)]
  by_cases hv : v.isNone
  · rw [if_neg (fun hc => by simp [hv] at hc),
      if_neg (fun hc => absurd hc.1 (by decide)),
      if_neg (fun hc => absurd hc.1 (by decide)), if_pos hv]
  · rw [if_pos ⟨rfl, by simp [hv]⟩, if_neg hv]
    cases hq : pyFloat v with
    | error e => rfl
    | ok q =>
      by_cases h : q / 100 = st.volume
      · simp [h]
      · simp [h]

/-- Unfolding of `setproperty` for a `time-pos` event: falsy values
(including `None` and exactly 0) are ignored; otherwise the value is
scaled to microseconds and truncated, stored silently, and a `Seeked`
signal fires exactly when the jump is at least 4,000,000 µs. -/
theorem setproperty_timepos_eq (st : PState) (v : PyVal) :
    setproperty st "time-pos" v =
      (if truthy v then
         match int64TimesMillion v with
         | .error e => .error e
         | .ok newval =>
           if 4 * 1000000 ≤ |newval - st.position| then
             .ok ({st with position := newval}, [.seeked newval])
           else .ok ({st with position := newval}, [])
       else .ok (st, [])) := by
  unfold setproperty
  rw [if_neg (by decide), if_neg (by decide),
    if_neg (fun hc => absurd hc.1 (by decide))]
  by_cases hv : truthy v
  · rw [if_pos ⟨rfl, hv⟩, if_pos hv]
    cases hm : int64TimesMillion v with
    | error e => rfl
    | ok newval =>
      by_cases h : newval = st.position
      · subst h
        simp
      · simp [h]
  · rw [if_neg (fun hc => hv hc.2),
      if_neg (fun hc => absurd hc.1 (by decide)), if_neg hv]

/-- Unfolding of `setproperty` for a well-shaped `metadata` event: the
id is sanitized, the length scaled to microseconds and truncated, and
the built entry stored with a notification exactly when it differs. -/
theorem setproperty_metadata_eq (st : PState) (id ttl : String) (len : ℚ) :
    setproperty st "metadata" (.tup [.str id, .str ttl, .num len]) =
      (let nv := Meta.full (sanitize id) (int64MicrosOfRat len) ttl
       if nv = st.metadata then .ok (st, [])
       else .ok ({st with metadata := nv},
         [.propertiesChanged PLAYER_INTERFACE [("Metadata", .meta nv)] []])) := by
  unfold setproperty
  rw [if_neg (by decide), if_neg (by decide),
    if_neg (fun hc => absurd hc.1 (by decide)),
    if_neg (fun hc => absurd hc.1 (by decide)), if_pos ⟨rfl, rfl⟩]
  show (let nv := Meta.full (sanitize id) (int64MicrosOfRat len) ttl
    if nv ≠ st.metadata then _ else _) = _
  by_cases h : Meta.full (sanitize id) (int64MicrosOfRat len) ttl = st.metadata
  · simp [h]
  · simp [h]

/-- Unfolding of `setproperty` for truthy but wrongly shaped event
values: the handler raises instead of applying anything. -/
theorem setproperty_badshape_eq (st : PState) :
    setproperty st "volume" (.tup [.none]) = .error .typeError ∧
    setproperty st "time-pos" (.tup [.num 1]) = .error .typeError ∧
    setproperty st "metadata" (.tup [.num 1]) = .error .valueError ∧
    setproperty st "metadata" (.str "ab") = .error .typeError := by
  refine ⟨?_, ?_, ?_, ?_⟩
  · rw [setproperty_volume_eq]
    rfl
  · rw [setproperty_timepos_eq]
    rfl
  all_goals
    unfold setproperty
    rw [if_neg (by decide), if_neg (by decide),
      if_neg (fun hc => absurd hc.1 (by decide)),
      if_neg (fun hc => absurd hc.1 (by decide)), if_pos ⟨rfl, rfl⟩]

/-- Applying one pause or stop event never raises and always leaves the
status in the admissible set. -/
theorem pause_stop_step (st : PState) (n : String) (v : PyVal)
    (hn : n = "pause" ∨ n = "stop") :
    ∃ st1 sigs, setproperty st n v = .ok (st1, sigs) ∧
      st1.playbackStatus ∈ okStatuses := by
  rcases hn with h | h <;> subst h
  · rw [setproperty_pause_eq]
    by_cases h : (if truthy v then "Paused" else "Playing") = st.playbackStatus
    · rw [if_pos h]
      exact ⟨st, [], rfl, by rw [← h]; cases truthy v <;> simp [okStatuses]⟩
    · rw [if_neg h]
      exact ⟨_, _, rfl, by cases truthy v <;> simp [okStatuses]⟩
  · rw [setproperty_stop_eq]
    by_cases h : (if truthy v then "Stopped" else "Playing") = st.playbackStatus
    · rw [if_pos h]
      exact ⟨st, [], rfl, by rw [← h]; cases truthy v <;> simp [okStatuses]⟩
    · rw [if_neg h]
      exact ⟨_, _, rfl, by cases truthy v <;> simp [okStatuses]⟩

/-- A sequence of pause/stop events never raises and preserves the
status invariant. -/
theorem applySeq_pause_stop (evs : List (String × PyVal)) :
    ∀ st : PState, st.playbackStatus ∈ okStatuses →
      (∀ e ∈ evs, e.1 = "pause" ∨ e.1 = "stop") →
      ∃ st1 sigs, applySeq st evs = .ok (st1, sigs) ∧
        st1.playbackStatus ∈ okStatuses := by
  induction evs with
  | nil => exact fun st h _ => ⟨st, [], rfl, h⟩
  | cons e rest ih =>
    intro st h hall
    obtain ⟨n, v⟩ := e
    obtain ⟨st1, sigs, heq, hst1⟩ :=
      pause_stop_step st n v (hall (n, v) (by simp))
    obtain ⟨st2, sigs2, heq2, hst2⟩ :=
      ih st1 hst1 (fun x hx => hall x (by simp [hx]))
    exact ⟨st2, sigs ++ sigs2, by simp [applySeq, heq, heq2], hst2⟩

/-- C1: under any sequence of pause/stop events the stored
`PlaybackStatus` stays in {Playing, Paused, Stopped}; a pause event
computes `Paused if v else Playing` and a stop event computes
`Stopped if v else Playing`, each mutating and emitting a
`PropertiesChanged` notification exactly when the computed status
differs from the stored one, with invalidated list `[]` for pause and
`[Metadata, Position]` for stop. -/
theorem claim1_pause_stop_invariant :
    (∀ (st : PState) (evs : List (String × PyVal)),
      st.playbackStatus ∈ okStatuses →
      (∀ e ∈ evs, e.1 = "pause" ∨ e.1 = "stop") →
      ∃ st1 sigs, applySeq st evs = .ok (st1, sigs) ∧
        st1.playbackStatus ∈ okStatuses) ∧
    (∀ (st : PState) (v : PyVal),
      setproperty st "pause" v =
        (if (if truthy v then "Paused" else "Playing") = st.playbackStatus then
          .ok (st, [])
         else
          .ok ({st with
              playbackStatus := if truthy v then "Paused" else "Playing"},
            [.propertiesChanged PLAYER_INTERFACE
              [("PlaybackStatus", .s (if truthy v then "Paused" else "Playing"))]
              []]))) ∧
    (∀ (st : PState) (v : PyVal),
      setproperty st "stop" v =
        (if (if truthy v then "Stopped" else "Playing") = st.playbackStatus then
          .ok (st, [])
         else
          .ok ({st with
              playbackStatus := if truthy v then "Stopped" else "Playing"},
            [.propertiesChanged PLAYER_INTERFACE
              [("PlaybackStatus", .s (if truthy v then "Stopped" else "Playing"))]
              ["Metadata", "Position"]]))) :=
  ⟨fun st evs h hall => applySeq_pause_stop evs st h hall,
   setproperty_pause_eq, setproperty_stop_eq⟩

/-- Witness for C1 on a concrete pause/stop sequence from the initial
state. -/
theorem claim1_pause_stop_invariant_witness :
    ∃ st1 sigs,
      applySeq (initState 0)
        [("pause", PyVal.num 1), ("stop", PyVal.num 1), ("stop", PyVal.none)] =
        .ok (st1, sigs) ∧
      st1.playbackStatus ∈ okStatuses :=
  claim1_pause_stop_invariant.1 (initState 0) _ (by decide) (by decide)

/-- C9 (amended): a metadata event stores the trackid path
`/CurrentPlaylist/ytid/` followed by the id stripped to `[A-Za-z0-9]`
(so `"abc-123_X"` yields `"abc123X"`), and stores as `mpris:length`
the value `length·1e6` truncated toward zero (equal to `length·1e6`
whenever the length is integral); a `PropertiesChanged` notification
with `Metadata` and an empty invalidated list fires iff the built
metadata differs from the stored one. -/
theorem claim9_metadata_sanitized :
    (∀ (st : PState) (id ttl : String) (len : ℚ),
      setproperty st "metadata" (.tup [.str id, .str ttl, .num len]) =
        (let nv := Meta.full (sanitize id) (int64MicrosOfRat len) ttl
         if nv = st.metadata then .ok (st, [])
         else .ok ({st with metadata := nv},
           [.propertiesChanged PLAYER_INTERFACE [("Metadata", .meta nv)] []])) ∧
      trackidPath (Meta.full (sanitize id) (int64MicrosOfRat len) ttl) =
        "/CurrentPlaylist/ytid/" ++ sanitize id) ∧
    sanitize "abc-123_X" = "abc123X" :=
  ⟨fun st id ttl len => ⟨setproperty_metadata_eq st id ttl len, rfl⟩, by decide⟩

/-- C9 counterexample: a metadata event with the non-integral length
5/3 seconds stores `mpris:length` 1666666 µs, which is not
`length·1e6 = 5000000/3` µs: `dbus.Int64` truncates. -/
theorem claim9_counterexample :
    (resState (setproperty (initState 0) "metadata"
        (.tup [.str "abc-123_X", .str "T", .num (mkRat 5 3)])) (initState 0)).metadata =
      Meta.full "abc123X" 1666666 "T" ∧
    ((1666666 : ℚ) ≠ (mkRat 5 3 : ℚ) * 1000000) := by
  constructor
  · decide
  · rw [Rat.mkRat_eq_div]
    norm_num

/-- No single change event ever puts `Position` among the changed
properties of an emitted `PropertiesChanged` signal. -/
theorem changedKeys_step (st : PState) (n : String) (v : PyVal)
    (r : PState × List Sig) (h : setproperty st n v = .ok r) :
    ∀ sig ∈ r.2, "Position" ∉ changedKeys sig := by
  unfold setproperty at h
  dsimp only at h
  repeat' split at h
  all_goals first
    | exact Except.noConfusion h
    | (injection h with h2; subst h2; intro sig hs;
       simp only [List.mem_singleton, List.not_mem_nil] at hs;
       try (subst hs; simp [changedKeys]))

/-- No sequence of change events ever puts `Position` among the changed
properties of an emitted `PropertiesChanged` signal. -/
theorem applySeq_changedKeys (evs : List (String × PyVal)) :
    ∀ (st : PState) (r : PState × List Sig), applySeq st evs = .ok r →
      ∀ sig ∈ r.2, "Position" ∉ changedKeys sig := by
  induction evs with
  | nil =>
    intro st r h
    injection h with h2
    subst h2
    intro sig hs
    exact absurd hs (List.not_mem_nil sig)
  | cons e rest ih =>
    intro st r h
    obtain ⟨n, v⟩ := e
    simp only [applySeq] at h
    cases h1 : setproperty st n v with
    | error e1 =>
      rw [h1] at h
      exact Except.noConfusion h
    | ok p =>
      obtain ⟨st1, sigs⟩ := p
      rw [h1] at h
      dsimp only at h
      cases h2 : applySeq st1 rest with
      | error e2 =>
        rw [h2] at h
        exact Except.noConfusion h
      | ok p2 =>
        obtain ⟨st2, sigs2⟩ := p2
        rw [h2] at h
        dsimp only at h
        injection h with h3
        subst h3
        intro sig hs
        rcases List.mem_append.1 hs with hs | hs
        · exact changedKeys_step st n v (st1, sigs) h1 sig hs
        · exact ih st1 (st2, sigs2) h2 sig hs

/-- C2 (amended): a `time-pos(v)` event with nonzero numeric `v` stores
`Position` as `v·1e6` truncated toward zero (`dbus.Int64` truncates,
not rounds), emits a discrete `Seeked(new)` signal iff
`|new − old| ≥ 4,000,000` µs, and `Position` never appears among the
changed properties of any `PropertiesChanged` notification under any
event sequence (it does appear in the invalidated list of stop
notifications). -/
theorem claim2_timepos_position :
    (∀ (st : PState) (q : ℚ), q ≠ 0 →
      setproperty st "time-pos" (.num q) =
        (if 4 * 1000000 ≤ |int64MicrosOfRat q - st.position| then
          .ok ({st with position := int64MicrosOfRat q},
            [.seeked (int64MicrosOfRat q)])
         else .ok ({st with position := int64MicrosOfRat q}, []))) ∧
    (∀ (st : PState) (evs : List (String × PyVal)) (r : PState × List Sig),
      applySeq st evs = .ok r →
      ∀ sig ∈ r.2, "Position" ∉ changedKeys sig) := by
  constructor
  · intro st q hq
    rw [setproperty_timepos_eq,
      if_pos (show truthy (.num q) = true by simp [truthy, hq])]
    rfl
  · exact fun st evs r h => applySeq_changedKeys evs st r h

/-- Witness for C2 at a concrete 5-second position event (a jump of
5,000,000 µs from 0, so `Seeked` fires) and a concrete pause-event
notification. -/
theorem claim2_timepos_position_witness :
    setproperty (initState 0) "time-pos" (PyVal.num 5) =
      .ok ({initState 0 with position := int64MicrosOfRat 5},
        [Sig.seeked (int64MicrosOfRat 5)]) ∧
    "Position" ∉ changedKeys (Sig.propertiesChanged PLAYER_INTERFACE
      [("PlaybackStatus", PropVal.s "Paused")] []) := by
  constructor
  · rw [claim2_timepos_position.1 (initState 0) 5 (by norm_num),
      if_pos (by decide)]
  · exact claim2_timepos_position.2 (initState 0) [("pause", PyVal.num 1)]
      ({initState 0 with playbackStatus := "Paused"},
        [.propertiesChanged PLAYER_INTERFACE
          [("PlaybackStatus", .s "Paused")] []])
      rfl
      (Sig.propertiesChanged PLAYER_INTERFACE
        [("PlaybackStatus", PropVal.s "Paused")] [])
      (by decide)

/-- C2 counterexample: for `v = 5/3` seconds the stored position is the
truncation 1666666, not `round(v·1e6) = 1666667`; and a stop event does
put `Position` into the invalidated list of a `PropertiesChanged`
notification, so `Position` is not absent from every notification. -/
theorem claim2_counterexample :
    (resState (setproperty (initState 0) "time-pos" (.num (mkRat 5 3)))
        (initState 0)).position = 1666666 ∧
    round ((mkRat 5 3 : ℚ) * 1000000) = (1666667 : ℤ) ∧
    ((1666666 : ℤ) ≠ 1666667) ∧
    resSigs (setproperty (initState 0) "stop" PyVal.none) =
      [.propertiesChanged PLAYER_INTERFACE [("PlaybackStatus", .s "Playing")]
        ["Metadata", "Position"]] ∧
    "Position" ∈ invalidatedKeys (Sig.propertiesChanged PLAYER_INTERFACE
      [("PlaybackStatus", .s "Playing")] ["Metadata", "Position"]) := by
  refine ⟨by decide, ?_, by decide, by decide, by decide⟩
  rw [Rat.mkRat_eq_div]
  norm_num [round_eq]

/-- If every connect attempt in range fails, the retry loop runs its
whole fuel, sleeping 0.5 s before each attempt, and reports failure. -/
theorem connectLoopAux_allfail (co : ℕ → Bool) :
    ∀ (fuel t : ℕ), (∀ i, t ≤ i → i < t + fuel → co i = false) →
      connectLoopAux co fuel t = (List.replicate fuel ((1 : ℚ)/2), false) := by
  intro fuel
  induction fuel with
  | zero => intro t _; rfl
  | succ n ih =>
    intro t hall
    unfold connectLoopAux
    rw [hall t (le_refl t) (by omega)]
    simp only [Bool.false_eq_true, if_false, List.replicate_succ]
    rw [ih (t + 1) (fun i hi1 hi2 => hall i (by omega) (by omega))]

/-- The retry loop makes at most `fuel` attempts. -/
theorem connectLoopAux_length (co : ℕ → Bool) :
    ∀ (fuel t : ℕ), (connectLoopAux co fuel t).1.length ≤ fuel := by
  intro fuel
  induction fuel with
  | zero => intro t; simp [connectLoopAux]
  | succ n ih =>
    intro t
    unfold connectLoopAux
    by_cases h : co t
    · simp [h]
    · simp only [h, Bool.false_eq_true, if_false, List.length_cons]
      exact Nat.succ_le_succ (ih (t + 1))

/-- C5: the socket bind attempts to connect at most 10 times; with
every attempt failing it makes exactly 10 attempts, each preceded by a
0.5-second sleep, reports no connection, and leaves the socket handle
cleared, after which (with no pipe bound) every outward command send is
a silent no-op producing no wire traffic and raising nothing. -/
theorem claim5_socket_bind_failure :
    (∀ co : ℕ → Bool, (connectLoop co).1.length ≤ 10) ∧
    (∀ (st : PState) (co : ℕ → Bool), (∀ i, i < 10 → co i = false) →
      (connectLoop co).1 = List.replicate 10 ((1 : ℚ)/2) ∧
      (connectLoop co).2 = false ∧
      (bindmpv st co).socket = false ∧
      (bindmpv st co).mpv = true ∧
      (st.fifo = false → ∀ cmd, sendcommand (bindmpv st co) cmd = [])) := by
  constructor
  · intro co
    exact connectLoopAux_length co 10 0
  · intro st co hall
    have h1 : connectLoop co = (List.replicate 10 ((1 : ℚ)/2), false) :=
      connectLoopAux_allfail co 10 0 (fun i _ hi => hall i (by omega))
    refine ⟨by rw [connectLoop] at h1; rw [connectLoop, h1],
      by rw [connectLoop] at h1; rw [connectLoop, h1], ?_, ?_, ?_⟩
    · simp [bindmpv, h1]
    · simp [bindmpv, h1]
    · intro hf cmd
      simp [sendcommand, bindmpv, h1, hf]

/-- Witness for C5 with an always-failing connect oracle. -/
theorem claim5_socket_bind_failure_witness :
    (connectLoop (fun _ => false)).1 = List.replicate 10 ((1 : ℚ)/2) ∧
    (connectLoop (fun _ => false)).2 = false ∧
    (bindmpv (initState 0) (fun _ => false)).socket = false ∧
    (bindmpv (initState 0) (fun _ => false)).mpv = true ∧
    sendcommand (bindmpv (initState 0) (fun _ => false)) [.str "quit"] = [] := by
  obtain ⟨h1, h2, h3, h4, h5⟩ :=
    claim5_socket_bind_failure.2 (initState 0) (fun _ => false)
      (fun i _ => rfl)
  exact ⟨h1, h2, h3, h4, h5 rfl [.str "quit"]⟩

/-- C6 (amended): events with an unrecognized tag are silent no-ops, as
are `volume`/`time-pos`/`metadata` events with a null value; but a
null-valued `pause` event is treated as falsy and computes status
`Playing`, mutating the table and notifying when the stored status
differs (a null `stop` event behaves likewise); and wrongly shaped
values for `volume`/`time-pos`/`metadata` raise an exception out of
`setproperty` that the relay loop's bare `except` swallows — the table
is unchanged and nothing is emitted, but the relay loop terminates. -/
theorem claim6_malformed_events :
    (∀ (st : PState) (n : String) (v : PyVal),
      n ∉ ["pause", "stop", "volume", "time-pos", "metadata"] →
      setproperty st n v = .ok (st, [])) ∧
    (∀ st : PState,
      setproperty st "volume" PyVal.none = .ok (st, []) ∧
      setproperty st "time-pos" PyVal.none = .ok (st, []) ∧
      setproperty st "metadata" PyVal.none = .ok (st, [])) ∧
    (∀ st : PState,
      setproperty st "pause" PyVal.none =
        (if "Playing" = st.playbackStatus then .ok (st, [])
         else .ok ({st with playbackStatus := "Playing"},
           [.propertiesChanged PLAYER_INTERFACE
             [("PlaybackStatus", .s "Playing")] []]))) ∧
    (∀ st : PState,
      setproperty st "volume" (.tup [.none]) = .error .typeError ∧
      setproperty st "time-pos" (.tup [.num 1]) = .error .typeError ∧
      setproperty st "metadata" (.tup [.num 1]) = .error .valueError) ∧
    (∀ (st : PState) (n : String) (v : PyVal) (rest : List (String × PyVal))
      (e : PyErr), setproperty st n v = .error e →
      listenApply st ((n, v) :: rest) = (st, [])) := by
  refine ⟨?_, ?_, ?_, ?_, ?_⟩
  · intro st n v hn
    simp only [List.mem_cons, List.not_mem_nil, or_false, not_or] at hn
    exact setproperty_other_eq st n v hn.1 hn.2.1 hn.2.2.1 hn.2.2.2.1 hn.2.2.2.2
  · intro st
    refine ⟨?_, ?_, ?_⟩
    · rw [setproperty_volume_eq]
      rfl
    · rw [setproperty_timepos_eq]
      rfl
    · unfold setproperty
      rw [if_neg (by decide), if_neg (by decide),
        if_neg (fun hc => absurd hc.1 (by decide)),
        if_neg (fun hc => absurd hc.1 (by decide)),
        if_neg (fun hc => absurd hc.2 (by decide))]
  · intro st
    rw [setproperty_pause_eq]
    rfl
  · intro st
    exact ⟨(setproperty_badshape_eq st).1, (setproperty_badshape_eq st).2.1,
      (setproperty_badshape_eq st).2.2.1⟩
  · intro st n v rest e h
    simp only [listenApply, h]

/-- C6 counterexample: a `pause` event with a null value is not a
no-op — from the initial `'Stopped'` state it mutates the status to
`'Playing'` and emits a `PropertiesChanged` notification. -/
theorem claim6_counterexample :
    setproperty (initState 0) "pause" PyVal.none =
      .ok ({initState 0 with playbackStatus := "Playing"},
        [.propertiesChanged PLAYER_INTERFACE
          [("PlaybackStatus", .s "Playing")] []]) ∧
    (initState 0).playbackStatus ≠ "Playing" :=
  ⟨rfl, by decide⟩

/-- Witness for C6 at a concrete unknown tag and a concrete malformed
volume event followed by a dropped pause event. -/
theorem claim6_malformed_events_witness :
    setproperty (initState 0) "foo" (PyVal.num 1) = .ok (initState 0, []) ∧
    listenApply (initState 0)
      [("volume", PyVal.tup [PyVal.none]), ("pause", PyVal.num 1)] =
      (initState 0, []) := by
  constructor
  · exact claim6_malformed_events.1 (initState 0) "foo" (PyVal.num 1)
      (by decide)
  · exact claim6_malformed_events.2.2.2.2 (initState 0) "volume"
      (PyVal.tup [PyVal.none]) [("pause", PyVal.num 1)] .typeError
      ((claim6_malformed_events.2.2.2.1 (initState 0)).1)

/-- C7: `Properties.Set` on the Player interface with `Volume` issues
the outward command `["set_property","volume", v*100]`, followed by a
`["get_property","volume"]` query iff the fifo (pipe transport) is
bound; and `Set` never mutates the property table — for any interface,
property and value, a successful call returns the state unchanged (and
an unknown interface raises without touching it). -/
theorem claim7_set_volume :
    (∀ (st : PState) (v : ℚ),
      SetProperty st PLAYER_INTERFACE "Volume" v =
        .ok (st, [[.str "set_property", .str "volume", .num (v * 100)]] ++
          (if st.fifo then [[.str "get_property", .str "volume"]] else []))) ∧
    (∀ (st : PState) (iface prop : String) (v : ℚ) (st1 : PState)
      (cmds : List (List Atom)),
      SetProperty st iface prop v = .ok (st1, cmds) → st1 = st) := by
  constructor
  · intro st v
    unfold SetProperty
    rw [if_pos (Or.inr rfl), if_pos (by decide), if_pos rfl]
  · intro st iface prop v st1 cmds h
    unfold SetProperty at h
    repeat' split at h
    all_goals first
      | exact Except.noConfusion h
      | (injection h with h2; exact (congrArg Prod.fst h2).symm)

/-- Witness for C7 at a concrete unbound state and volume 1. -/
theorem claim7_set_volume_witness :
    SetProperty (initState 0) PLAYER_INTERFACE "Volume" 1 =
      .ok (initState 0,
        [[.str "set_property", .str "volume", .num (1 * 100)]]) ∧
    initState 0 = initState 0 := by
  constructor
  · have h := claim7_set_volume.1 (initState 0) 1
    simpa using h
  · exact claim7_set_volume.2 (initState 0) PLAYER_INTERFACE "Volume" 1
      (initState 0) [[.str "set_property", .str "volume", .num (1 * 100)]]
      (by simpa using claim7_set_volume.1 (initState 0) 1)

/-- C8: for any interface name other than the two registered ones,
`GetAll`, `Get` and `Set` all raise the `UnknownInterface` protocol
exception to the caller (so the property table is never touched). -/
theorem claim8_unknown_interface :
    ∀ (st : PState) (iface prop : String) (v : ℚ),
      iface ≠ ROOT_INTERFACE → iface ≠ PLAYER_INTERFACE →
      GetAll st iface = .error (.unknownInterface iface) ∧
      Get st iface prop = .error (.unknownInterface iface) ∧
      SetProperty st iface prop v = .error (.unknownInterface iface) := by
  intro st iface prop v h1 h2
  have hga : GetAll st iface = .error (.unknownInterface iface) := by
    unfold GetAll
    rw [if_neg h1, if_neg h2]
  refine ⟨hga, ?_, ?_⟩
  · unfold Get
    rw [hga]
  · unfold SetProperty
    rw [if_neg (fun hc => hc.elim h1 h2)]

/-- Witness for C8 at a concrete unregistered interface name. -/
theorem claim8_unknown_interface_witness :
    GetAll (initState 0) "com.example.Foo" =
      .error (.unknownInterface "com.example.Foo") ∧
    Get (initState 0) "com.example.Foo" "Volume" =
      .error (.unknownInterface "com.example.Foo") ∧
    SetProperty (initState 0) "com.example.Foo" "Volume" 1 =
      .error (.unknownInterface "com.example.Foo") :=
  claim8_unknown_interface (initState 0) "com.example.Foo" "Volume" 1
    (by decide) (by decide)
